import Mathlib

/-!
Verification of the packet-socket and test-client helpers of the n-dhcp4
DHCPv4 client library.

The development shallowly embeds, in Lean:

* the classic-BPF filter program that `n_dhcp4_network_client_packet_socket_new`
  (src/n-dhcp4-network.c) builds and attaches, together with an interpreter for
  the subset of classic BPF the program uses (machine registers are modelled
  as `Nat` with explicit reduction mod 2^32 where overflow matters, packets as
  lists of bytes);
* the system-call sequencing of `n_dhcp4_network_client_packet_socket_new`
  (socket / attach-filter / auxdata / bind, their error propagation, and the
  writes performed through the `sockfdp` out-parameter);
* `parse_hexstr` of the test client (src/test-run-client.c).

The host is modelled as little-endian Linux, so `ntohs`/`htons` swap the two
bytes of a 16-bit value, and the numeric values of the socket constants are
the usual Linux ABI values.
-/

/-! ## Classic BPF: data model

`SockFilter` mirrors `struct sock_filter` from linux/filter.h: one
instruction made of an opcode, the two conditional-jump displacements and a
32-bit immediate. -/

set_option maxRecDepth 10000

structure SockFilter where
  code : Nat
  jt : Nat
  jf : Nat
  k : Nat
deriving DecidableEq

/-- BPF_STMT from linux/filter.h: a statement has no jump displacements. -/
def BPF_STMT (code k : Nat) : SockFilter := ⟨code, 0, 0, k⟩

/-- BPF_JUMP from linux/filter.h: argument order is code, k, jt, jf. -/
def BPF_JUMP (code k jt jf : Nat) : SockFilter := ⟨code, jt, jf, k⟩

/-! Opcode building blocks, with their numeric values from linux/filter.h
(and linux/bpf_common.h). -/

def BPF_LD : Nat := 0x00
def BPF_LDX : Nat := 0x01
def BPF_ALU : Nat := 0x04
def BPF_JMP : Nat := 0x05
def BPF_RET : Nat := 0x06
def BPF_MISC : Nat := 0x07
def BPF_W : Nat := 0x00
def BPF_H : Nat := 0x08
def BPF_B : Nat := 0x10
def BPF_ABS : Nat := 0x20
def BPF_IND : Nat := 0x40
def BPF_LEN : Nat := 0x80
def BPF_MSH : Nat := 0xa0
def BPF_K : Nat := 0x00
def BPF_X : Nat := 0x08
def BPF_ADD : Nat := 0x00
def BPF_SUB : Nat := 0x10
def BPF_AND : Nat := 0x50
def BPF_JEQ : Nat := 0x10
def BPF_JGE : Nat := 0x30
def BPF_TAX : Nat := 0x00

/-! ## Protocol and platform constants used by n-dhcp4-network.c -/

/-- IPPROTO_UDP from netinet/in.h. -/
def IPPROTO_UDP : Nat := 17

/-- IP_MF (more-fragments flag) from netinet/ip.h, host byte order. -/
def IP_MF : Nat := 0x2000

/-- IP_OFFMASK (13 fragment-offset bits) from netinet/ip.h, host order. -/
def IP_OFFMASK : Nat := 0x1fff

/-- Byte offset of the `protocol` field in `struct iphdr` (linux/ip.h). -/
def offsetof_iphdr_protocol : Nat := 9

/-- Byte offset of the `frag_off` field in `struct iphdr` (linux/ip.h). -/
def offsetof_iphdr_frag_off : Nat := 6

/-- Byte offset of the `dest` field in `struct udphdr` (linux/udp.h). -/
def offsetof_udphdr_dest : Nat := 2

/-- Size in bytes of `struct udphdr` (linux/udp.h). -/
def sizeof_udphdr : Nat := 8

/-- Modelled from the spec: byte offset of the `op` field of the fixed BOOTP
prelude `NDhcp4Header` (n-dhcp4-private.h is not under src/); the spec's data
model lists `op` first. -/
def offsetof_NDhcp4Header_op : Nat := 0

/-- Modelled from the spec: byte offset of the `xid` field of `NDhcp4Header`;
the spec lists op, htype, hlen, hops (one byte each) before the 32-bit xid. -/
def offsetof_NDhcp4Header_xid : Nat := 4

/-- Modelled from the spec: byte offset of the magic cookie inside
`NDhcp4Message`, which is the 236-byte BOOTP header followed by the 4-byte
cookie ("Validate total length ≥ 240 (header + cookie)"). -/
def offsetof_NDhcp4Message_magic : Nat := 236

/-- Modelled from the spec: size of `NDhcp4Message` = 236-byte header plus the
4-byte magic cookie. -/
def sizeof_NDhcp4Message : Nat := 240

/-- Modelled from the spec: the DHCP client port, 68 (spec §4.2, §6). -/
def N_DHCP4_NETWORK_CLIENT_PORT : Nat := 68

/-- Modelled from the spec: BOOTREPLY op code, 2 (spec §3: "op (1=BOOTREQUEST,
2=BOOTREPLY)"). -/
def N_DHCP4_OP_BOOTREPLY : Nat := 2

/-- Modelled from the spec: the DHCP magic cookie 0x63825363 (spec §6). -/
def N_DHCP4_MESSAGE_MAGIC : Nat := 0x63825363

/-- htons on a little-endian host: swap the two bytes of a 16-bit value. -/
def htons (x : Nat) : Nat := (x % 256) * 256 + (x / 256) % 256

/-- ntohs on a little-endian host: same byte swap as `htons`. -/
def ntohs (x : Nat) : Nat := htons x

/-! ## Classic BPF: semantics

Packets are lists of bytes. A read of byte `i` yields `pkt.getD i 0 % 256`
(memory holds bytes). BPF half-word and word loads assemble bytes in network
byte order, as the kernel interpreter does. Registers hold 32-bit values,
modelled as `Nat` reduced mod 2^32 where the kernel's arithmetic wraps. -/

def getByte (pkt : List Nat) (i : Nat) : Nat := pkt.getD i 0 % 256

def getHalf (pkt : List Nat) (i : Nat) : Nat :=
  getByte pkt i * 256 + getByte pkt (i + 1)

def getWord (pkt : List Nat) (i : Nat) : Nat :=
  ((getByte pkt i * 256 + getByte pkt (i + 1)) * 256 + getByte pkt (i + 2)) * 256
    + getByte pkt (i + 3)

/-- Truncation to a 32-bit register value. -/
def u32 (n : Nat) : Nat := n % 2 ^ 32

/-- 32-bit wrapping subtraction, as BPF_ALU SUB computes it. -/
def sub32 (a x : Nat) : Nat := (a + 2 ^ 32 - x % 2 ^ 32) % 2 ^ 32

/-- Interpreter for the classic-BPF subset used by the n-dhcp4 client filter.
The program is consumed from the front; a conditional jump of displacement `d`
drops `d` further instructions, which is exactly the kernel's forward-jump
semantics (classic BPF has no backward jumps). Out-of-bounds packet loads
terminate the filter with a return value of 0 (drop), as in the kernel.
Falling off the end of the program also yields 0 (the kernel verifier rejects
such programs). The accumulator `a` and index register `x` are the two
machine registers. The first list argument is fuel making the recursion
structural; each step consumes one fuel element and at least one program
instruction, so running with the program itself as fuel (`bpfExec`) never
exhausts it before the program ends. -/
def bpfRun (pkt : List Nat) : List SockFilter → List SockFilter → Nat → Nat → Option Nat
  | [], _, _, _ => some 0
  | _ :: _, [], _, _ => some 0
  | _ :: fuel, f :: rest, a, x =>
    if f.code = BPF_RET + BPF_K then some f.k
    else if f.code = BPF_LD + BPF_B + BPF_ABS then
      if f.k + 1 ≤ pkt.length then bpfRun pkt fuel rest (getByte pkt f.k) x else some 0
    else if f.code = BPF_LD + BPF_H + BPF_IND then
      if x + f.k + 2 ≤ pkt.length then bpfRun pkt fuel rest (getHalf pkt (x + f.k)) x
      else some 0
    else if f.code = BPF_LD + BPF_W + BPF_IND then
      if x + f.k + 4 ≤ pkt.length then bpfRun pkt fuel rest (getWord pkt (x + f.k)) x
      else some 0
    else if f.code = BPF_LD + BPF_B + BPF_IND then
      if x + f.k + 1 ≤ pkt.length then bpfRun pkt fuel rest (getByte pkt (x + f.k)) x
      else some 0
    else if f.code = BPF_LD + BPF_W + BPF_LEN then bpfRun pkt fuel rest (u32 pkt.length) x
    else if f.code = BPF_LD + BPF_W + BPF_K then bpfRun pkt fuel rest (u32 f.k) x
    else if f.code = BPF_LDX + BPF_B + BPF_MSH then
      if f.k + 1 ≤ pkt.length then bpfRun pkt fuel rest a (4 * (getByte pkt f.k &&& 0xf))
      else some 0
    else if f.code = BPF_ALU + BPF_AND + BPF_K then bpfRun pkt fuel rest (a &&& f.k) x
    else if f.code = BPF_ALU + BPF_SUB + BPF_X then bpfRun pkt fuel rest (sub32 a x) x
    else if f.code = BPF_ALU + BPF_ADD + BPF_X then bpfRun pkt fuel rest (u32 (a + x)) x
    else if f.code = BPF_MISC + BPF_TAX then bpfRun pkt fuel rest a a
    else if f.code = BPF_JMP + BPF_JEQ + BPF_K then
      if a = f.k then bpfRun pkt fuel (rest.drop f.jt) a x
      else bpfRun pkt fuel (rest.drop f.jf) a x
    else if f.code = BPF_JMP + BPF_JGE + BPF_K then
      if f.k ≤ a then bpfRun pkt fuel (rest.drop f.jt) a x
      else bpfRun pkt fuel (rest.drop f.jf) a x
    else some 0

/-- Execute a BPF program on a packet, with the program itself as fuel. -/
def bpfExec (prog : List SockFilter) (pkt : List Nat) : Option Nat :=
  bpfRun pkt prog prog 0 0

/-! ## The filter program of n_dhcp4_network_client_packet_socket_new

A line-by-line transcription of the `filter[]` array in
src/n-dhcp4-network.c, lines 33-96. -/

/-- The BPF filter array built by `n_dhcp4_network_client_packet_socket_new`
for transaction id `xid`. -/
def n_dhcp4_client_filter (xid : Nat) : List SockFilter := [
  BPF_STMT (BPF_LD + BPF_B + BPF_ABS) offsetof_iphdr_protocol,
  BPF_JUMP (BPF_JMP + BPF_JEQ + BPF_K) IPPROTO_UDP 1 0,
  BPF_STMT (BPF_RET + BPF_K) 0,
  BPF_STMT (BPF_LD + BPF_B + BPF_ABS) offsetof_iphdr_frag_off,
  BPF_STMT (BPF_ALU + BPF_AND + BPF_K) (ntohs (IP_MF ||| IP_OFFMASK)),
  BPF_JUMP (BPF_JMP + BPF_JEQ + BPF_K) 0 1 0,
  BPF_STMT (BPF_RET + BPF_K) 0,
  BPF_STMT (BPF_LDX + BPF_B + BPF_MSH) 0,
  BPF_STMT (BPF_LD + BPF_W + BPF_LEN) 0,
  BPF_STMT (BPF_ALU + BPF_SUB + BPF_X) 0,
  BPF_JUMP (BPF_JMP + BPF_JGE + BPF_K) (sizeof_udphdr + sizeof_NDhcp4Message) 1 0,
  BPF_STMT (BPF_RET + BPF_K) 0,
  BPF_STMT (BPF_LD + BPF_H + BPF_IND) offsetof_udphdr_dest,
  BPF_JUMP (BPF_JMP + BPF_JEQ + BPF_K) N_DHCP4_NETWORK_CLIENT_PORT 1 0,
  BPF_STMT (BPF_RET + BPF_K) 0,
  BPF_STMT (BPF_LD + BPF_W + BPF_K) sizeof_udphdr,
  BPF_STMT (BPF_ALU + BPF_ADD + BPF_X) 0,
  BPF_STMT (BPF_MISC + BPF_TAX) 0,
  BPF_STMT (BPF_LD + BPF_B + BPF_IND) offsetof_NDhcp4Header_op,
  BPF_JUMP (BPF_JMP + BPF_JEQ + BPF_K) N_DHCP4_OP_BOOTREPLY 1 0,
  BPF_STMT (BPF_RET + BPF_K) 0,
  BPF_STMT (BPF_LD + BPF_W + BPF_IND) offsetof_NDhcp4Header_xid,
  BPF_JUMP (BPF_JMP + BPF_JEQ + BPF_K) xid 1 0,
  BPF_STMT (BPF_RET + BPF_K) 0,
  BPF_STMT (BPF_LD + BPF_W + BPF_IND) offsetof_NDhcp4Message_magic,
  BPF_JUMP (BPF_JMP + BPF_JEQ + BPF_K) N_DHCP4_MESSAGE_MAGIC 1 0,
  BPF_STMT (BPF_RET + BPF_K) 0,
  BPF_STMT (BPF_RET + BPF_K) 65535
]

/-- Run the client filter on a packet: no socket-buffer state, just the
program and the frame. -/
def runClientFilter (xid : Nat) (pkt : List Nat) : Option Nat :=
  bpfExec (n_dhcp4_client_filter xid) pkt

/-- IP header length in bytes as the filter's BPF_MSH instruction computes
it: 4 times the low nibble of the packet's first byte. -/
def iphl (pkt : List Nat) : Nat := 4 * (getByte pkt 0 &&& 0xf)

/-! ## Concrete frames used as witnesses and counterexamples

Each frame is an IPv4 datagram as an AF_PACKET/SOCK_DGRAM socket delivers it
(link header stripped): 20-byte IP header (ihl = 5), 8-byte UDP header to
destination port 68, then a 240-byte DHCP message (op = BOOTREPLY, the given
xid, 228 further header bytes, the magic cookie); 268 bytes in total. -/

/-- Build such a frame from the two fragment-field bytes, the two UDP
destination-port bytes and the four xid bytes. -/
def mkFrame (frag0 frag1 p0 p1 x0 x1 x2 x3 : Nat) : List Nat :=
  [0x45, 0, 0x01, 0x0c, 0, 0, frag0, frag1, 64, 17, 0, 0, 10, 0, 0, 1, 10, 0, 0, 2]
    ++ [0, 67, p0, p1, 0, 0xf8, 0, 0]
    ++ [2, 1, 6, 0, x0, x1, x2, x3]
    ++ List.replicate 228 0
    ++ [0x63, 0x82, 0x53, 0x63]

/-- A well-formed unfragmented BOOTREPLY frame with xid 0x11223344. -/
def frameGood : List Nat := mkFrame 0 0 0 68 0x11 0x22 0x33 0x44

/-- A last-fragment frame (MF clear) with fragment offset 1 (8 bytes), whose
remaining fields all satisfy the filter; xid 0x12345678. -/
def frameFragOffset1 : List Nat := mkFrame 0 1 0 68 0x12 0x34 0x56 0x78

/-- A last-fragment frame with fragment offset 2; xid 0xdeadbeef. -/
def frameFragOffset2 : List Nat := mkFrame 0 2 0 68 0xde 0xad 0xbe 0xef

/-- A frame with the IP more-fragments flag set; xid 0x01020304. -/
def frameMF : List Nat := mkFrame 0x20 0 0 68 0x01 0x02 0x03 0x04

/-- A frame that is valid except that its UDP destination port is 67. -/
def framePort67 : List Nat := mkFrame 0 0 0 67 0x11 0x22 0x33 0x44

/-! ## Characterization of the filter -/

/-- The exact acceptance condition of the installed filter, read off the
program: UDP protocol; the high byte of the fragment field masked by
`ntohs(IP_MF|IP_OFFMASK)` (a byte-sized load, so effectively masked by 0x3f)
equal to zero; enough room after the IP header for UDP header plus DHCP
message; client destination port; BOOTREPLY; matching xid; magic cookie. -/
def filterAccepts (xid : Nat) (pkt : List Nat) : Prop :=
  getByte pkt offsetof_iphdr_protocol = IPPROTO_UDP ∧
  getByte pkt offsetof_iphdr_frag_off &&& ntohs (IP_MF ||| IP_OFFMASK) = 0 ∧
  iphl pkt + (sizeof_udphdr + sizeof_NDhcp4Message) ≤ pkt.length ∧
  getHalf pkt (iphl pkt + offsetof_udphdr_dest) = N_DHCP4_NETWORK_CLIENT_PORT ∧
  getByte pkt (iphl pkt + sizeof_udphdr + offsetof_NDhcp4Header_op) = N_DHCP4_OP_BOOTREPLY ∧
  getWord pkt (iphl pkt + sizeof_udphdr + offsetof_NDhcp4Header_xid) = xid ∧
  getWord pkt (iphl pkt + sizeof_udphdr + offsetof_NDhcp4Message_magic) = N_DHCP4_MESSAGE_MAGIC

instance (xid : Nat) (pkt : List Nat) : Decidable (filterAccepts xid pkt) := by
  unfold filterAccepts
  infer_instance

/-- The acceptance condition exactly as claim C1 words it, with the
fragmentation test applied to the full 16-bit fragment-offset field masked by
`IP_MF | IP_OFFMASK`, and the length condition phrased as frame length minus
IP header length. -/
def c1SpecCondition (xid : Nat) (pkt : List Nat) : Prop :=
  getByte pkt offsetof_iphdr_protocol = IPPROTO_UDP ∧
  getHalf pkt offsetof_iphdr_frag_off &&& (IP_MF ||| IP_OFFMASK) = 0 ∧
  sizeof_udphdr + sizeof_NDhcp4Message ≤ pkt.length - iphl pkt ∧
  getHalf pkt (iphl pkt + offsetof_udphdr_dest) = N_DHCP4_NETWORK_CLIENT_PORT ∧
  getByte pkt (iphl pkt + sizeof_udphdr + offsetof_NDhcp4Header_op) = N_DHCP4_OP_BOOTREPLY ∧
  getWord pkt (iphl pkt + sizeof_udphdr + offsetof_NDhcp4Header_xid) = xid ∧
  getWord pkt (iphl pkt + sizeof_udphdr + offsetof_NDhcp4Message_magic) = N_DHCP4_MESSAGE_MAGIC

instance (xid : Nat) (pkt : List Nat) : Decidable (c1SpecCondition xid pkt) := by
  unfold c1SpecCondition
  infer_instance

/-! ## The system-call model of n_dhcp4_network_client_packet_socket_new

The function body (src/n-dhcp4-network.c, lines 101-128) performs four
system calls in sequence: socket, setsockopt(SO_ATTACH_FILTER),
setsockopt(PACKET_AUXDATA) and bind, returning `-errno` at the first failure
and writing the descriptor through `sockfdp` only on full success. The model
records the calls made, the return value, and every write performed through
the out-parameter. Numeric constants are the Linux ABI values. -/

def AF_PACKET : Nat := 17
def SOCK_DGRAM : Nat := 2
def SOL_SOCKET : Nat := 1
def SO_ATTACH_FILTER : Nat := 26
def SOL_PACKET : Nat := 263
def PACKET_AUXDATA : Nat := 8
def ETH_P_IP : Nat := 0x0800

/-- The sockaddr_ll fields that the function initializes before binding. -/
structure SockaddrLl where
  sll_family : Nat
  sll_protocol : Nat
  sll_ifindex : Nat
deriving DecidableEq

/-- One system call as issued by the function. The `close` constructor is
available in the modelled C environment but, notably, never used by the
function. -/
inductive Syscall where
  | socket (domain stype protocol : Nat)
  | setsockopt_fprog (fd level optname : Nat) (prog : List SockFilter)
  | setsockopt_int (fd level optname val : Nat)
  | bind (fd : Nat) (addr : SockaddrLl)
  | close (fd : Nat)
deriving DecidableEq

/-- Outcomes of the four underlying operations: `Except.error e` / `some e`
means the call fails with errno `e`; `Except.ok fd` / `none` means success. -/
structure NetEnv where
  socket_res : Except Nat Nat
  attach_res : Option Nat
  auxdata_res : Option Nat
  bind_res : Option Nat

/-- Result of a run of the function: C return value, the system calls issued
in order, and the values written through the `sockfdp` out-parameter. -/
structure CallResult where
  ret : Int
  trace : List Syscall
  sockfdp_writes : List Nat
deriving DecidableEq

/-- The system-call behaviour of `n_dhcp4_network_client_packet_socket_new`,
mirroring the body at src/n-dhcp4-network.c lines 101-128: each operation is
attempted in order; the first failure makes the function return the negated
errno immediately (no cleanup call is issued); on full success the socket
descriptor is stored through the out-parameter and 0 is returned. -/
def n_dhcp4_network_client_packet_socket_new (env : NetEnv) (ifindex : Nat) (xid : Nat) :
    CallResult :=
  match env.socket_res with
  | .error e => ⟨-(e : Int), [.socket AF_PACKET SOCK_DGRAM 0], []⟩
  | .ok sockfd =>
    let t1 := [Syscall.socket AF_PACKET SOCK_DGRAM 0,
      Syscall.setsockopt_fprog sockfd SOL_SOCKET SO_ATTACH_FILTER (n_dhcp4_client_filter xid)]
    match env.attach_res with
    | some e => ⟨-(e : Int), t1, []⟩
    | none =>
      let t2 := t1 ++ [Syscall.setsockopt_int sockfd SOL_PACKET PACKET_AUXDATA 1]
      match env.auxdata_res with
      | some e => ⟨-(e : Int), t2, []⟩
      | none =>
        let t3 := t2 ++ [Syscall.bind sockfd ⟨AF_PACKET, htons ETH_P_IP, ifindex⟩]
        match env.bind_res with
        | some e => ⟨-(e : Int), t3, []⟩
        | none => ⟨0, t3, [sockfd]⟩

/-- All four underlying operations succeed. -/
def NetEnv.allOk (env : NetEnv) : Prop :=
  (∃ fd, env.socket_res = .ok fd) ∧ env.attach_res = none ∧
    env.auxdata_res = none ∧ env.bind_res = none

/-- The errno of the first failing operation, in program order. -/
def NetEnv.firstErrno (env : NetEnv) : Option Nat :=
  match env.socket_res with
  | .error e => some e
  | .ok _ =>
    match env.attach_res with
    | some e => some e
    | none =>
      match env.auxdata_res with
      | some e => some e
      | none => env.bind_res

/-- Well-formedness of the environment: every errno a failing operation
produces is positive, as POSIX guarantees. -/
def NetEnv.wf (env : NetEnv) : Prop :=
  (∀ e, env.socket_res = .error e → 0 < e) ∧
  (∀ e, env.attach_res = some e → 0 < e) ∧
  (∀ e, env.auxdata_res = some e → 0 < e) ∧
  (∀ e, env.bind_res = some e → 0 < e)

/-- A run in which every operation succeeds and the socket call yields
descriptor 3. -/
def envOk : NetEnv := ⟨.ok 3, none, none, none⟩

/-- A run in which the socket call yields descriptor 3 and attaching the
filter fails with errno 1 (EPERM). -/
def envAttachFail : NetEnv := ⟨.ok 3, some 1, none, none⟩

/-! ## The parse_hexstr model

`parse_hexstr` (src/test-run-client.c, lines 219-257) walks the input
string; each character contributes a nibble value (its hex digit value, or 0
for any character outside 0-9, a-f, A-F); at even indices the nibble is
stored into the output cell `i/2`, at odd indices the cell is shifted left
four bits (as a `uint8_t`, hence mod 256) and or-ed with the nibble. The
output buffer holds `(strlen(in)+1)/2` bytes. On success the function stores
the buffer and returns 0; the model assumes allocation succeeds, and the
`Int` component of the result is the C return value. -/

/-- Nibble value of one character: the three case ranges of the switch, with
the fall-through default of 0. -/
def hexnib (c : Char) : Nat :=
  if '0'.toNat ≤ c.toNat ∧ c.toNat ≤ '9'.toNat then c.toNat - '0'.toNat
  else if 'a'.toNat ≤ c.toNat ∧ c.toNat ≤ 'f'.toNat then c.toNat - 'a'.toNat + 0xa
  else if 'A'.toNat ≤ c.toNat ∧ c.toNat ≤ 'F'.toNat then c.toNat - 'A'.toNat + 0xa
  else 0

/-- The output buffer before the loop: `(n+1)/2` cells (the model gives
fresh memory the value 0; every cell is written before it is read, so the
choice is immaterial). -/
def ph_init (s : List Char) : List Nat := List.replicate ((s.length + 1) / 2) 0

/-- One iteration of the loop body at index `i`. -/
def ph_step (s : List Char) (out : List Nat) (i : Nat) : List Nat :=
  let v := hexnib (s.getD i '0')
  if i % 2 = 1 then out.set (i / 2) ((out.getD (i / 2) 0 <<< 4) % 256 ||| v)
  else out.set (i / 2) v

/-- The loop, run for the first `i` indices. -/
def ph_run (s : List Char) (i : Nat) : List Nat :=
  (List.range i).foldl (ph_step s) (ph_init s)

/-- The whole function: return value 0 and the filled output buffer. -/
def parse_hexstr (s : List Char) : Int × List Nat := (0, ph_run s s.length)

set_option maxHeartbeats 1000000 in
/-- Master lemma: on any frame of 32-bit representable length, the client
filter returns 65535 exactly on `filterAccepts` and 0 otherwise. -/
theorem runClientFilter_characterization (xid : Nat) (pkt : List Nat)
    (hlen : pkt.length < 2 ^ 32) :
    runClientFilter xid pkt = some (if filterAccepts xid pkt then 65535 else 0) := by
  have hnib : getByte pkt 0 &&& 0xf ≤ 15 := Nat.and_le_right
  simp [runClientFilter, bpfExec, n_dhcp4_client_filter, bpfRun, BPF_STMT, BPF_JUMP,
    BPF_LD, BPF_LDX, BPF_ALU, BPF_JMP, BPF_RET, BPF_MISC, BPF_W, BPF_H, BPF_B, BPF_ABS,
    BPF_IND, BPF_LEN, BPF_MSH, BPF_K, BPF_X, BPF_ADD, BPF_SUB, BPF_AND, BPF_JEQ, BPF_JGE,
    BPF_TAX, IPPROTO_UDP, IP_MF, IP_OFFMASK, offsetof_iphdr_protocol, offsetof_iphdr_frag_off,
    offsetof_udphdr_dest, sizeof_udphdr, sizeof_NDhcp4Message, offsetof_NDhcp4Header_op,
    offsetof_NDhcp4Header_xid, offsetof_NDhcp4Message_magic, N_DHCP4_NETWORK_CLIENT_PORT,
    N_DHCP4_OP_BOOTREPLY, N_DHCP4_MESSAGE_MAGIC, ntohs, htons, u32, List.drop]
  rw [show pkt.length % 4294967296 = pkt.length from by omega,
    show (8 + 4 * (getByte pkt 0 &&& 15)) % 4294967296 = 8 + 4 * (getByte pkt 0 &&& 15) from by
      omega,
    show 8 + 4 * (getByte pkt 0 &&& 15) = 4 * (getByte pkt 0 &&& 15) + 8 from by omega]
  by_cases hacc : filterAccepts xid pkt
  · have hacc' := hacc
    simp [filterAccepts, iphl, IPPROTO_UDP, IP_MF, IP_OFFMASK, offsetof_iphdr_protocol,
      offsetof_iphdr_frag_off, offsetof_udphdr_dest, sizeof_udphdr, sizeof_NDhcp4Message,
      offsetof_NDhcp4Header_op, offsetof_NDhcp4Header_xid, offsetof_NDhcp4Message_magic,
      N_DHCP4_NETWORK_CLIENT_PORT, N_DHCP4_OP_BOOTREPLY, N_DHCP4_MESSAGE_MAGIC,
      ntohs, htons] at hacc'
    obtain ⟨c2, c4, clen, cport, cop, cxid, cmagic⟩ := hacc'
    rw [if_pos hacc]
    rw [if_pos (show 10 ≤ pkt.length from by omega), if_pos c2,
      if_pos (show 7 ≤ pkt.length from by omega), if_pos c4,
      if_pos (show 1 ≤ pkt.length from by omega),
      if_pos (show 248 ≤ sub32 pkt.length (4 * (getByte pkt 0 &&& 15)) from by
        simp only [sub32]
        omega),
      if_pos (show 4 * (getByte pkt 0 &&& 15) + 2 + 2 ≤ pkt.length from by omega),
      if_pos cport,
      if_pos (show 4 * (getByte pkt 0 &&& 15) + 8 + 1 ≤ pkt.length from by omega),
      if_pos cop,
      if_pos (show 4 * (getByte pkt 0 &&& 15) + 8 + 4 + 4 ≤ pkt.length from by omega),
      if_pos cxid,
      if_pos (show 4 * (getByte pkt 0 &&& 15) + 8 + 236 + 4 ≤ pkt.length from by omega),
      if_pos cmagic]
  · rw [if_neg hacc]
    by_cases h1 : 10 ≤ pkt.length
    case neg => rw [if_neg h1]
    rw [if_pos h1]
    by_cases h2 : getByte pkt 9 = 17
    case neg => rw [if_neg h2]
    rw [if_pos h2]
    by_cases h3 : 7 ≤ pkt.length
    case neg => rw [if_neg h3]
    rw [if_pos h3]
    by_cases h4 : getByte pkt 6 &&& 65343 = 0
    case neg => rw [if_neg h4]
    rw [if_pos h4]
    by_cases h5 : 1 ≤ pkt.length
    case neg => rw [if_neg h5]
    rw [if_pos h5]
    by_cases h6 : 248 ≤ sub32 pkt.length (4 * (getByte pkt 0 &&& 15))
    case neg => rw [if_neg h6]
    rw [if_pos h6]
    by_cases h7 : 4 * (getByte pkt 0 &&& 15) + 2 + 2 ≤ pkt.length
    case neg => rw [if_neg h7]
    rw [if_pos h7]
    by_cases h8 : getHalf pkt (4 * (getByte pkt 0 &&& 15) + 2) = 68
    case neg => rw [if_neg h8]
    rw [if_pos h8]
    by_cases h9 : 4 * (getByte pkt 0 &&& 15) + 8 + 1 ≤ pkt.length
    case neg => rw [if_neg h9]
    rw [if_pos h9]
    by_cases h10 : getByte pkt (4 * (getByte pkt 0 &&& 15) + 8) = 2
    case neg => rw [if_neg h10]
    rw [if_pos h10]
    by_cases h11 : 4 * (getByte pkt 0 &&& 15) + 8 + 4 + 4 ≤ pkt.length
    case neg => rw [if_neg h11]
    rw [if_pos h11]
    by_cases h12 : getWord pkt (4 * (getByte pkt 0 &&& 15) + 8 + 4) = xid
    case neg => rw [if_neg h12]
    rw [if_pos h12]
    by_cases h13 : 4 * (getByte pkt 0 &&& 15) + 8 + 236 + 4 ≤ pkt.length
    case neg => rw [if_neg h13]
    rw [if_pos h13]
    by_cases h14 : getWord pkt (4 * (getByte pkt 0 &&& 15) + 8 + 236) = 1669485411
    case neg => rw [if_neg h14]
    rw [if_pos h14]
    exact absurd
      ⟨h2, h4, by simp only [iphl, sizeof_udphdr, sizeof_NDhcp4Message]; omega,
        h8, h10, h12, h14⟩ hacc


/-! ## Helper lemmas -/

theorem getByte_lt (pkt : List Nat) (i : Nat) : getByte pkt i < 256 :=
  Nat.mod_lt _ (by norm_num)

/-- For byte-sized values, masking with 0xff3f is masking with 0x3f. -/
theorem and_65343_eq_and_63 (b : Nat) (hb : b < 256) : b &&& 65343 = b &&& 63 := by
  interval_cases b <;> decide

/-- Acceptance forces 65535, rejection forces 0. -/
theorem runClientFilter_of_accepts (xid : Nat) (pkt : List Nat)
    (hlen : pkt.length < 2 ^ 32) (hacc : filterAccepts xid pkt) :
    runClientFilter xid pkt = some 65535 := by
  rw [runClientFilter_characterization xid pkt hlen, if_pos hacc]

theorem runClientFilter_of_not_accepts (xid : Nat) (pkt : List Nat)
    (hlen : pkt.length < 2 ^ 32) (hacc : ¬ filterAccepts xid pkt) :
    runClientFilter xid pkt = some 0 := by
  rw [runClientFilter_characterization xid pkt hlen, if_neg hacc]

/-! ## Claim C1 -/

/-- Claim C1, counterexample: the filter accepts (returns 65535, the nonzero
accept length) a frame whose 16-bit fragment-offset field masked by
`IP_MF | IP_OFFMASK` is nonzero (a last fragment at offset 1), so acceptance
is not equivalent to the claimed conjunction. -/
theorem claimC1_counterexample :
    runClientFilter 0x12345678 frameFragOffset1 = some 65535 ∧
      ¬ c1SpecCondition 0x12345678 frameFragOffset1 := by
  constructor
  · decide
  · decide

/-- Claim C1 as amended: for every frame (of 32-bit representable length) the
filter returns the nonzero accept length 65535 exactly when all the claimed
conditions hold, with the fragmentation condition weakened to what the
byte-sized load at the fragment-offset field actually checks — high byte of
the field masked by 0x3f equal to zero, i.e. MF clear and fragment offset
below 256 eight-byte units — and returns 0 (drop) otherwise. -/
theorem claimC1 (xid : Nat) (pkt : List Nat) (hlen : pkt.length < 2 ^ 32) :
    (runClientFilter xid pkt = some 65535 ↔ filterAccepts xid pkt) ∧
      (¬ filterAccepts xid pkt → runClientFilter xid pkt = some 0) := by
  refine ⟨⟨fun h => ?_, fun h => ?_⟩, fun h => ?_⟩
  · by_contra hacc
    rw [runClientFilter_characterization xid pkt hlen, if_neg hacc] at h
    simp at h
  · rw [runClientFilter_characterization xid pkt hlen, if_pos h]
  · rw [runClientFilter_characterization xid pkt hlen, if_neg h]

/-- Witness for claim C1 at a concrete accepted frame. -/
theorem claimC1_witness : runClientFilter 0x11223344 frameGood = some 65535 :=
  (claimC1 0x11223344 frameGood (by decide)).1.mpr (by decide)

/-! ## Claim C2 -/

/-- Claim C2, counterexample: a frame whose 16-bit fragment-offset field
masked by `IP_MF | IP_OFFMASK` is nonzero (offset 2, MF clear) is not
dropped: the filter returns 65535. -/
theorem claimC2_counterexample :
    getHalf frameFragOffset2 offsetof_iphdr_frag_off &&& (IP_MF ||| IP_OFFMASK) ≠ 0 ∧
      runClientFilter 0xdeadbeef frameFragOffset2 = some 65535 := by
  constructor
  · decide
  · decide

/-- Claim C2 as amended: the filter drops every frame whose fragment-field
HIGH byte masked by 0x3f is nonzero — that is, frames with the
more-fragments flag set or with fragment offset of at least 256 eight-byte
units (the byte-sized BPF load sees only the high byte of the field); frames
with MF clear and a small nonzero offset pass this check. In particular every
frame with the IP MF flag set is dropped. -/
theorem claimC2 (xid : Nat) (pkt : List Nat) (hlen : pkt.length < 2 ^ 32)
    (hfrag : getByte pkt offsetof_iphdr_frag_off &&& 0x3f ≠ 0) :
    runClientFilter xid pkt = some 0 := by
  apply runClientFilter_of_not_accepts xid pkt hlen
  rintro ⟨-, c4, -⟩
  apply hfrag
  have h63 := and_65343_eq_and_63 (getByte pkt offsetof_iphdr_frag_off)
    (getByte_lt pkt offsetof_iphdr_frag_off)
  simp only [ntohs, htons, IP_MF, IP_OFFMASK] at c4
  rw [show ((0x2000 ||| 0x1fff) % 256 * 256 + (0x2000 ||| 0x1fff) / 256 % 256 : Nat) = 65343
    from by decide] at c4
  rw [← h63]
  exact c4

/-- Witness for claim C2 at a concrete frame with the MF flag set. -/
theorem claimC2_witness : runClientFilter 0x01020304 frameMF = some 0 :=
  claimC2 0x01020304 frameMF (by decide) (by decide)

/-! ## Claim C5 -/

/-- Claim C5: the xid given at socket creation appears as the immediate of
the jump-if-equal instruction at index 22 of the filter program; every frame
whose DHCP xid field differs from it is dropped (the filter returns 0), and
frames carrying exactly that xid pass the check (a frame meeting all the
other acceptance conditions is accepted). -/
theorem claimC5 (xid : Nat) (pkt : List Nat) (hlen : pkt.length < 2 ^ 32) :
    ((n_dhcp4_client_filter xid).getD 22 (BPF_STMT 0 0) =
        BPF_JUMP (BPF_JMP + BPF_JEQ + BPF_K) xid 1 0) ∧
      (getWord pkt (iphl pkt + sizeof_udphdr + offsetof_NDhcp4Header_xid) ≠ xid →
        runClientFilter xid pkt = some 0) ∧
      (filterAccepts xid pkt → runClientFilter xid pkt = some 65535) := by
  refine ⟨rfl, fun hxid => ?_, fun hacc => runClientFilter_of_accepts xid pkt hlen hacc⟩
  apply runClientFilter_of_not_accepts xid pkt hlen
  rintro ⟨-, -, -, -, -, cxid, -⟩
  exact hxid cxid

/-- Witness for claim C5: a frame whose xid field is 0x11223344 is dropped
by the filter parameterized with xid 0x0badf00d. -/
theorem claimC5_witness : runClientFilter 0x0badf00d frameGood = some 0 :=
  (claimC5 0x0badf00d frameGood (by decide)).2.1 (by decide)

/-! ## Claim C7 -/

/-- Claim C7: every frame whose UDP destination port (the 16-bit field read
at offset IP-header-length plus the offset of the destination-port field of
the UDP header) differs from 68 is dropped; the comparison instruction is
the indirect half-word load at index 12 of the program, whose displacement is
`offsetof(struct udphdr, dest)`. -/
theorem claimC7 (xid : Nat) (pkt : List Nat) (hlen : pkt.length < 2 ^ 32)
    (hport : getHalf pkt (iphl pkt + offsetof_udphdr_dest) ≠ N_DHCP4_NETWORK_CLIENT_PORT) :
    runClientFilter xid pkt = some 0 ∧
      (n_dhcp4_client_filter xid).getD 12 (BPF_STMT 0 0) =
        BPF_STMT (BPF_LD + BPF_H + BPF_IND) offsetof_udphdr_dest := by
  refine ⟨?_, rfl⟩
  apply runClientFilter_of_not_accepts xid pkt hlen
  rintro ⟨-, -, -, cport, -⟩
  exact hport cport

/-- Witness for claim C7 at a concrete frame with destination port 67. -/
theorem claimC7_witness : runClientFilter 0x11223344 framePort67 = some 0 :=
  (claimC7 0x11223344 framePort67 (by decide) (by decide)).1

/-! ## Claim C9 -/

/-- Claim C9, counterexample: the filter program does not have 24
instructions. -/
theorem claimC9_counterexample : (n_dhcp4_client_filter 0).length ≠ 24 := by
  decide

/-- Claim C9 as amended: the filter program is a fixed sequence of 28
instructions (its length does not depend on the xid immediate); every jump
displacement is at most 1 and jumps are forward by the semantics of classic
BPF; and on every frame of 32-bit representable length the evaluation is
total, terminating at a return instruction yielding either 0 (drop) or 65535
(accept the whole frame). -/
theorem claimC9 (xid : Nat) (pkt : List Nat) (hlen : pkt.length < 2 ^ 32) :
    (n_dhcp4_client_filter xid).length = 28 ∧
      (∀ f ∈ n_dhcp4_client_filter xid, f.jt ≤ 1 ∧ f.jf = 0) ∧
      (runClientFilter xid pkt = some 0 ∨ runClientFilter xid pkt = some 65535) := by
  refine ⟨rfl, fun f hf => ?_, ?_⟩
  · simp only [n_dhcp4_client_filter, BPF_STMT, BPF_JUMP, List.mem_cons,
      List.not_mem_nil, or_false] at hf
    rcases hf with h | h | h | h | h | h | h | h | h | h | h | h | h | h |
      h | h | h | h | h | h | h | h | h | h | h | h | h | h <;> subst h <;>
      exact ⟨by simp, rfl⟩
  · rw [runClientFilter_characterization xid pkt hlen]
    by_cases hacc : filterAccepts xid pkt
    · right
      rw [if_pos hacc]
    · left
      rw [if_neg hacc]

/-- Witness for claim C9 at a concrete frame. -/
theorem claimC9_witness :
    (n_dhcp4_client_filter 7).length = 28 ∧
      (runClientFilter 7 frameGood = some 0 ∨ runClientFilter 7 frameGood = some 65535) :=
  ⟨(claimC9 7 frameGood (by decide)).1, (claimC9 7 frameGood (by decide)).2.2⟩

/-! ## Claim C3 -/

/-- Claim C3: the function returns 0 exactly when all four underlying
operations succeed, and at the first failing operation it returns the
negated errno of that operation, a strictly negative integer. -/
theorem claimC3 (env : NetEnv) (ifindex xid : Nat) (hwf : env.wf) :
    ((n_dhcp4_network_client_packet_socket_new env ifindex xid).ret = 0 ↔ env.allOk) ∧
      (∀ e, env.firstErrno = some e →
        (n_dhcp4_network_client_packet_socket_new env ifindex xid).ret = -(e : Int) ∧
          (n_dhcp4_network_client_packet_socket_new env ifindex xid).ret < 0) := by
  obtain ⟨w1, w2, w3, w4⟩ := hwf
  rcases env with ⟨sr, ar, xr, br⟩
  rcases sr with e | fd <;> rcases ar with e2 | e2 <;> rcases xr with e3 | e3 <;>
    rcases br with e4 | e4 <;>
    simp_all [n_dhcp4_network_client_packet_socket_new, NetEnv.allOk, NetEnv.firstErrno] <;>
    omega

/-- Witness for claim C3: with the filter-attach operation failing with
errno 1, the function returns -1. -/
theorem claimC3_witness :
    (n_dhcp4_network_client_packet_socket_new envAttachFail 2 7).ret = -1 ∧
      (n_dhcp4_network_client_packet_socket_new envAttachFail 2 7).ret < 0 :=
  (claimC3 envAttachFail 2 7 (by
    refine ⟨fun e h => ?_, fun e h => ?_, fun e h => ?_, fun e h => ?_⟩ <;>
      (simp [envAttachFail] at h; try omega))).2 1 rfl

/-! ## Claim C4 -/

/-- Claim C4 is contradicted by the code: on the error path taken after the
packet socket has been created (here: filter attach fails with errno 1), the
function returns the negative error code but never issues a close system
call; the descriptor from the socket call is not closed. -/
theorem claimC4_bug :
    (n_dhcp4_network_client_packet_socket_new envAttachFail 2 0x11223344).ret = -1 ∧
      (n_dhcp4_network_client_packet_socket_new envAttachFail 2 0x11223344).ret < 0 ∧
      Syscall.socket AF_PACKET SOCK_DGRAM 0 ∈
        (n_dhcp4_network_client_packet_socket_new envAttachFail 2 0x11223344).trace ∧
      ∀ fd : Nat, Syscall.close fd ∉
        (n_dhcp4_network_client_packet_socket_new envAttachFail 2 0x11223344).trace := by
  refine ⟨by decide, by decide, by decide, fun fd => ?_⟩
  simp [n_dhcp4_network_client_packet_socket_new, envAttachFail]

/-! ## Claim C6 -/

/-- Claim C6: on success the function issues, in order, a socket call with
family AF_PACKET and type SOCK_DGRAM, the filter attach, a setsockopt
enabling PACKET_AUXDATA, and a bind with protocol `htons(ETH_P_IP)` to the
given ifindex, and only then reports 0. -/
theorem claimC6 (env : NetEnv) (ifindex xid fd : Nat)
    (hs : env.socket_res = .ok fd) (ha : env.attach_res = none)
    (hx : env.auxdata_res = none) (hb : env.bind_res = none) :
    (n_dhcp4_network_client_packet_socket_new env ifindex xid).trace =
      [Syscall.socket AF_PACKET SOCK_DGRAM 0,
        Syscall.setsockopt_fprog fd SOL_SOCKET SO_ATTACH_FILTER (n_dhcp4_client_filter xid),
        Syscall.setsockopt_int fd SOL_PACKET PACKET_AUXDATA 1,
        Syscall.bind fd ⟨AF_PACKET, htons ETH_P_IP, ifindex⟩] ∧
      (n_dhcp4_network_client_packet_socket_new env ifindex xid).ret = 0 := by
  rcases env with ⟨sr, ar, xr, br⟩
  simp_all [n_dhcp4_network_client_packet_socket_new]

/-- Witness for claim C6 at the all-success environment. -/
theorem claimC6_witness :
    (n_dhcp4_network_client_packet_socket_new envOk 4 9).trace =
      [Syscall.socket AF_PACKET SOCK_DGRAM 0,
        Syscall.setsockopt_fprog 3 SOL_SOCKET SO_ATTACH_FILTER (n_dhcp4_client_filter 9),
        Syscall.setsockopt_int 3 SOL_PACKET PACKET_AUXDATA 1,
        Syscall.bind 3 ⟨AF_PACKET, htons ETH_P_IP, 4⟩] ∧
      (n_dhcp4_network_client_packet_socket_new envOk 4 9).ret = 0 :=
  claimC6 envOk 4 9 3 rfl rfl rfl rfl

/-! ## Claim C8 -/

/-- Claim C8: the `sockfdp` out-parameter is never written on a failure path,
and on the success path it is written exactly once, with the descriptor the
socket call produced, together with the return value 0. -/
theorem claimC8 (env : NetEnv) (ifindex xid : Nat) :
    (¬ env.allOk →
        (n_dhcp4_network_client_packet_socket_new env ifindex xid).sockfdp_writes = []) ∧
      (∀ fd, env.socket_res = .ok fd → env.attach_res = none → env.auxdata_res = none →
        env.bind_res = none →
        (n_dhcp4_network_client_packet_socket_new env ifindex xid).sockfdp_writes = [fd] ∧
          (n_dhcp4_network_client_packet_socket_new env ifindex xid).ret = 0) := by
  rcases env with ⟨sr, ar, xr, br⟩
  rcases sr with e | fd <;> rcases ar with e2 | e2 <;> rcases xr with e3 | e3 <;>
    rcases br with e4 | e4 <;>
    simp_all [n_dhcp4_network_client_packet_socket_new, NetEnv.allOk]

/-- Witness for claim C8: on the all-success environment, the descriptor 3 is
written through the out-parameter and 0 is returned. -/
theorem claimC8_witness :
    (n_dhcp4_network_client_packet_socket_new envOk 4 9).sockfdp_writes = [3] ∧
      (n_dhcp4_network_client_packet_socket_new envOk 4 9).ret = 0 :=
  (claimC8 envOk 4 9).2 3 rfl rfl rfl rfl

/-! ## parse_hexstr: lemmas -/

theorem hexnib_lt (c : Char) : hexnib c < 16 := by
  have e0 : '0'.toNat = 48 := rfl
  have e9 : '9'.toNat = 57 := rfl
  have ea : 'a'.toNat = 97 := rfl
  have ef : 'f'.toNat = 102 := rfl
  have eA : 'A'.toNat = 65 := rfl
  have eF : 'F'.toNat = 70 := rfl
  unfold hexnib
  rw [e0, e9, ea, ef, eA, eF]
  split_ifs <;> omega

/-- The odd-index update `(v1 << 4) % 256 | v2` on nibble values is exactly
big-nibble-first pairing. -/
theorem shiftLeft_or_eq (a b : Nat) (ha : a < 16) (hb : b < 16) :
    (a <<< 4) % 256 ||| b = 16 * a + b := by
  interval_cases a <;> interval_cases b <;> decide

theorem ph_run_succ (s : List Char) (i : Nat) :
    ph_run s (i + 1) = ph_step s (ph_run s i) i := by
  simp [ph_run, List.range_succ, List.foldl_append]

theorem ph_run_length (s : List Char) (i : Nat) :
    (ph_run s i).length = (s.length + 1) / 2 := by
  induction i with
  | zero => simp [ph_run, ph_init]
  | succ n ih =>
    rw [ph_run_succ]
    simp only [ph_step]
    split_ifs <;> simp [List.length_set, ih]

/-- Loop invariant: after the first `i` iterations every completed pair of
characters occupies its output cell big-nibble-first, and after an odd number
of iterations the cell `i / 2` holds the pending unshifted nibble of the last
character processed. -/
theorem ph_run_spec (s : List Char) (i : Nat) (hi : i ≤ s.length) :
    (∀ j, 2 * j + 2 ≤ i →
      (ph_run s i).getD j 0 =
        16 * hexnib (s.getD (2 * j) '0') + hexnib (s.getD (2 * j + 1) '0')) ∧
    (i % 2 = 1 → (ph_run s i).getD (i / 2) 0 = hexnib (s.getD (i - 1) '0')) := by
  induction i with
  | zero => exact ⟨fun j hj => absurd hj (by omega), fun h => absurd h (by omega)⟩
  | succ n ih =>
    obtain ⟨ihpair, ihodd⟩ := ih (by omega)
    have hlen := ph_run_length s n
    rw [ph_run_succ]
    by_cases hpar : n % 2 = 1
    · -- odd iteration: completes the pair at cell n / 2
      have hv1 := hexnib_lt (s.getD (n - 1) '0')
      have hv2 := hexnib_lt (s.getD n '0')
      have hidx : n / 2 < (ph_run s n).length := by omega
      constructor
      · intro j hj
        simp only [ph_step, if_pos hpar]
        rcases Nat.lt_or_ge j (n / 2) with hlt | hge
        · rw [List.getD_eq_getElem?_getD, List.getElem?_set_ne (show n / 2 ≠ j from by omega),
            ← List.getD_eq_getElem?_getD]
          exact ihpair j (by omega)
        · have hj2 : j = n / 2 := by omega
          subst hj2
          rw [List.getD_eq_getElem?_getD, List.getElem?_set_self hidx]
          simp only [Option.getD_some]
          rw [ihodd hpar, shiftLeft_or_eq _ _ hv1 hv2,
            show 2 * (n / 2) + 1 = n from by omega, show 2 * (n / 2) = n - 1 from by omega]
      · intro hpar1
        omega
    · -- even iteration: stores the fresh nibble at cell n / 2
      have hidx : n / 2 < (ph_run s n).length := by omega
      constructor
      · intro j hj
        simp only [ph_step, if_neg hpar]
        rw [List.getD_eq_getElem?_getD, List.getElem?_set_ne (show n / 2 ≠ j from by omega),
          ← List.getD_eq_getElem?_getD]
        exact ihpair j (by omega)
      · intro hpar1
        simp only [ph_step, if_neg hpar]
        rw [show (n + 1) / 2 = n / 2 from by omega]
        rw [List.getD_eq_getElem?_getD, List.getElem?_set_self hidx]
        simp only [Option.getD_some]
        rw [show n + 1 - 1 = n from by omega]

/-! ## Claim C10 -/

/-- Claim C10: `parse_hexstr` produces a buffer of exactly `(strlen+1)/2`
bytes; each complete pair of input characters is decoded big-nibble-first
into one byte; any character outside 0-9, a-f, A-F contributes the nibble
value 0; for odd-length input the final byte is the last character's nibble
value unshifted; and the function returns 0 whenever allocation succeeds
(the model assumes it does). -/
theorem claimC10 (s : List Char) (j : Nat) (c : Char) :
    (parse_hexstr s).2.length = (s.length + 1) / 2 ∧
    (2 * j + 1 < s.length →
      (parse_hexstr s).2.getD j 0 =
        16 * hexnib (s.getD (2 * j) '0') + hexnib (s.getD (2 * j + 1) '0')) ∧
    (s.length % 2 = 1 →
      (parse_hexstr s).2.getD (s.length / 2) 0 = hexnib (s.getD (s.length - 1) '0')) ∧
    (¬ (('0'.toNat ≤ c.toNat ∧ c.toNat ≤ '9'.toNat) ∨
        ('a'.toNat ≤ c.toNat ∧ c.toNat ≤ 'f'.toNat) ∨
        ('A'.toNat ≤ c.toNat ∧ c.toNat ≤ 'F'.toNat)) → hexnib c = 0) ∧
    (parse_hexstr s).1 = 0 := by
  refine ⟨ph_run_length s s.length, fun hj => ?_, fun hodd => ?_, fun hc => ?_, rfl⟩
  · exact (ph_run_spec s s.length le_rfl).1 j (by omega)
  · exact (ph_run_spec s s.length le_rfl).2 hodd
  · unfold hexnib
    split_ifs with h1 h2 h3 <;> tauto

/-- Witness for claim C10 on the input "0aF". -/
theorem claimC10_witness :
    (parse_hexstr ['0', 'a', 'F']).2.length = 2 ∧
      (parse_hexstr ['0', 'a', 'F']).2.getD 0 0 = 10 ∧
      (parse_hexstr ['0', 'a', 'F']).2.getD 1 0 = 15 ∧
      hexnib 'z' = 0 ∧
      (parse_hexstr ['0', 'a', 'F']).1 = 0 := by
  obtain ⟨h1, h2, h3, h4, h5⟩ := claimC10 ['0', 'a', 'F'] 0 'z'
  refine ⟨h1, ?_, ?_, h4 (by decide), h5⟩
  · rw [h2 (by decide)]
    decide
  · have h := h3 (by decide)
    norm_num at h
    rw [List.getD_eq_getElem?_getD, h]
    decide
